import Mathlib

/-!
Shallow embedding of the tag-admission pipeline of the compiler-tester
repository: the semantic-version helpers and `process_tag_event` from
src/webhook_handler.py, the `DatabaseManager` read/write operations from
src/db/database.py, the Docker dispatch command construction and the
process monitor from src/docker_ops.py, and the POST /webhook route
handler from src/main.py.  Machine integers are modelled as Nat/Int,
SQL rows as Lean structures, and the SQLite tables as lists of rows.
-/

namespace CompilerTester

/-! ### Semantic-version helpers, src/webhook_handler.py lines 16-38

String manipulation is carried out on the character list underlying the
string, with structural recursion, so that every definition evaluates
inside the kernel. -/

/-- Start codepoints of the 66 runs of ten consecutive Unicode decimal
digits (general category Nd, Unicode 14.0 — the table of CPython 3.11):
Python `\d` with a str pattern matches exactly the characters of these
runs, every run holds the digits zero through nine in order, and
`int()` maps each character to its offset in its run. -/
def ndRangeStarts : List Nat :=
  [0x30, 0x660, 0x6f0, 0x7c0, 0x966, 0x9e6, 0xa66, 0xae6, 0xb66, 0xbe6,
   0xc66, 0xce6, 0xd66, 0xde6, 0xe50, 0xed0, 0xf20, 0x1040, 0x1090, 0x17e0,
   0x1810, 0x1946, 0x19d0, 0x1a80, 0x1a90, 0x1b50, 0x1bb0, 0x1c40, 0x1c50,
   0xa620, 0xa8d0, 0xa900, 0xa9d0, 0xa9f0, 0xaa50, 0xabf0, 0xff10, 0x104a0,
   0x10d30, 0x11066, 0x110f0, 0x11136, 0x111d0, 0x112f0, 0x11450, 0x114d0,
   0x11650, 0x116c0, 0x11730, 0x118e0, 0x11950, 0x11c50, 0x11d50, 0x11da0,
   0x16a60, 0x16ac0, 0x16b50, 0x1d7ce, 0x1d7d8, 0x1d7e2, 0x1d7ec, 0x1d7f6,
   0x1e140, 0x1e2f0, 0x1e950, 0x1fbf0]

/-- The decimal value of a Unicode Nd digit, none for any other
character: what Python `int()` assigns the character when converting a
matched digit group. -/
def pyDigitVal (c : Char) : Option Nat :=
  ndRangeStarts.findSome? fun z =>
    if z ≤ c.toNat ∧ c.toNat < z + 10 then some (c.toNat - z) else none

/-- Whether Python `\d` matches the character: membership in general
category Nd. -/
def isPyDigit (c : Char) : Bool :=
  (pyDigitVal c).isSome

/-- Decimal value of an all-digit character list, as Python `int`
computes it for the digit groups accepted by `parseSemver`: base-10
combination of the per-character decimal values (digits of different
scripts may even be mixed within one group). -/
def digitsToNat (cs : List Char) : Nat :=
  cs.foldl (fun n c => 10 * n + (pyDigitVal c).getD 0) 0

/-- Split a character list on the dot character: the groups between
consecutive dots, in order, empty groups included. -/
def splitDots : List Char → List (List Char)
  | [] => [[]]
  | c :: rest =>
    if c = '.' then [] :: splitDots rest
    else
      match splitDots rest with
      | [] => [[c]]
      | g :: gs => (c :: g) :: gs

/-- `_parse_semver` (src/webhook_handler.py lines 16-23): full match of the
tag against `v(\d+)\.(\d+)\.(\d+)` — a leading v, then exactly three
nonempty all-digit groups separated by dots — returning the three integer
components; `\d` is the Unicode Nd class of `isPyDigit`, so non-ASCII
decimal digits are accepted exactly as the Python re module accepts
them. -/
def parseSemver (tag : String) : Option (Nat × Nat × Nat) :=
  match tag.data with
  | 'v' :: rest =>
    match splitDots rest with
    | [a, b, c] =>
      if a ≠ [] ∧ b ≠ [] ∧ c ≠ [] ∧
          a.all isPyDigit ∧ b.all isPyDigit ∧ c.all isPyDigit then
        some (digitsToNat a, digitsToNat b, digitsToNat c)
      else none
    | _ => none
  | _ => none

/-- `_is_greater_semver` (src/webhook_handler.py lines 26-38): false when
either tag fails to parse; when both parse, the comparison returns
`a_patch > b_patch` only when MAJOR and MINOR coincide, and otherwise
falls through to `True`. -/
def isGreaterSemver (a b : String) : Bool :=
  match parseSemver a, parseSemver b with
  | none, _ => false
  | some _, none => false
  | some (aMaj, aMin, aPat), some (bMaj, bMin, bPat) =>
    if aMaj = bMaj then
      if aMin = bMin then decide (aPat > bPat)
      else true
    else true

/-- Python `max(xs, key=k)` over a nonempty list: the first element whose
key is maximal (later elements replace the best only on a strictly
greater key). -/
def pyMaxByKey (k : String → Nat) : List String → Option String
  | [] => none
  | x :: xs => some (xs.foldl (fun best t => if k t > k best then t else best) x)

/-- MINOR component of a parsed tag, 0 when the tag does not parse; used
only on tags already filtered to be well-formed. -/
def minorOf (t : String) : Nat :=
  match parseSemver t with
  | some (_, mn, _) => mn
  | none => 0

/-! ### Relational store, schema from src/db/db_create.py -/

/-- A row of the Repository table. -/
structure RepoRow where
  git_username : String
  repository_name : String
  semester_name : String
  compiled : Nat
  program_call : String
  installation_id : Option Nat
  language : String
deriving DecidableEq, Repr

/-- A row of the Semester table. -/
structure SemesterRow where
  name : String
  language : String
  extension : String
  secret : String
deriving DecidableEq, Repr

/-- A row of the Version table; DATETIME columns are modelled as Int
timestamps. -/
structure VersionRow where
  version_name : String
  semester_name : String
  direct_input : Nat
  date_from : Int
  date_to : Int
deriving DecidableEq, Repr

/-- A row of the TestResult table; primary key is
(version_name, release_name, git_username, repository_name). -/
structure TestResultRow where
  version_name : String
  release_name : String
  git_username : String
  repository_name : String
  date_run : Int
  test_status : String
  issue_text : Option String
deriving DecidableEq, Repr

/-- The SQLite store consulted and written by the handlers. -/
structure Store where
  repositories : List RepoRow
  semesters : List SemesterRow
  versions : List VersionRow
  testResults : List TestResultRow
deriving DecidableEq, Repr

/-- Python truthiness of the installation_id value read from a row:
None and 0 are falsy. -/
def pyTruthyId : Option Nat → Bool
  | none => false
  | some n => n ≠ 0

/-! ### DatabaseManager operations, src/db/database.py -/

/-- The method names defined in class DatabaseManager
(src/db/database.py lines 7-347); Python attribute lookup on the
`db_manager` instance succeeds exactly for these. -/
def databaseManagerMethods : List String :=
  ["get_connection", "get_repository_info", "get_repository_status",
   "get_overall_repository_status", "record_test_result",
   "get_active_versions", "verify_webhook_secret", "get_semester_info",
   "list_repositories_by_semester", "save_repository_with_installation",
   "update_repository_details", "save_or_update_user",
   "remove_repositories_by_installation", "remove_orphaned_users",
   "get_installation_repositories", "remove_test_results_for_repo",
   "remove_repository"]

/-- Whether attribute lookup for a method name on the DatabaseManager
instance succeeds. -/
def dbManagerHasAttr (m : String) : Bool :=
  databaseManagerMethods.contains m

/-- The joined row returned by `get_repository_info`
(src/db/database.py lines 23-35): `SELECT r.*, s.language, s.extension,
s.secret` joined on the Semester table; because the Repository and
Semester tables both have a `language` column and `dict(row)` keeps the
last duplicate key, the `language` field of the result is the Semester
language. -/
structure RepoInfo where
  git_username : String
  repository_name : String
  semester_name : String
  compiled : Nat
  program_call : String
  installation_id : Option Nat
  language : String
  extension : String
  secret : String
deriving DecidableEq, Repr

/-- `get_repository_info` (src/db/database.py lines 23-35): first
Repository row matching the key, joined with its Semester row; None when
either is absent. -/
def getRepositoryInfo (s : Store) (u r : String) : Option RepoInfo :=
  match s.repositories.find? (fun row =>
      row.git_username = u ∧ row.repository_name = r) with
  | none => none
  | some row =>
    match s.semesters.find? (fun sem => sem.name = row.semester_name) with
    | none => none
    | some sem =>
      some { git_username := row.git_username,
             repository_name := row.repository_name,
             semester_name := row.semester_name,
             compiled := row.compiled,
             program_call := row.program_call,
             installation_id := row.installation_id,
             language := sem.language,
             extension := sem.extension,
             secret := sem.secret }

/-- `get_semester_info` (src/db/database.py lines 134-140). -/
def getSemesterInfo (s : Store) (name : String) : Option SemesterRow :=
  s.semesters.find? (fun sem => sem.name = name)

/-- Modelled from the spec: `has_release_tag` is invoked at
src/webhook_handler.py line 76 but DatabaseManager defines no such
method anywhere in the repository; section 4.2 of the spec describes it
as an exact-match lookup of the tag among the historical TestResult
release_name values of the repository, keyed by (git_username,
repository_name, release_name) only, ignoring version and semester. -/
def hasReleaseTag (s : Store) (u r tag : String) : Bool :=
  s.testResults.any (fun t =>
    t.git_username = u ∧ t.repository_name = r ∧ t.release_name = tag)

/-- Modelled from the spec: `get_release_tags` is invoked at
src/webhook_handler.py line 100 but DatabaseManager defines no such
method anywhere in the repository; section 4.2 of the spec describes it
as all historical release_name values for the repository, unfiltered. -/
def getReleaseTags (s : Store) (u r : String) : List String :=
  (s.testResults.filter (fun t =>
    t.git_username = u ∧ t.repository_name = r)).map (fun t => t.release_name)

/-- Modelled from the spec: `get_version_info` is invoked at
src/webhook_handler.py line 142 but DatabaseManager defines no such
method anywhere in the repository; section 4.3 of the spec describes it
as a pure lookup of a Version record by (semester_name, version_name),
with no date-window filtering. -/
def getVersionInfo (s : Store) (semester majorMinor : String) : Option VersionRow :=
  s.versions.find? (fun v =>
    v.semester_name = semester ∧ v.version_name = majorMinor)

/-- Whether a TestResult row carries the given primary-key values
(version_name, release_name, git_username, repository_name). -/
def trKey (vn rn u r : String) (t : TestResultRow) : Bool :=
  (t.version_name == vn) && (t.release_name == rn) &&
  (t.git_username == u) && (t.repository_name == r)

/-- Key predicate of the TestResult primary key: `a` conflicts with
`b`. -/
def sameTestResultKey (a b : TestResultRow) : Bool :=
  trKey b.version_name b.release_name b.git_username b.repository_name a

/-- `INSERT OR REPLACE INTO TestResult`: SQLite deletes every row that
conflicts on the primary key, then inserts the new row. -/
def insertOrReplaceTestResult (rows : List TestResultRow) (new : TestResultRow) :
    List TestResultRow :=
  rows.filter (fun t => ! sameTestResultKey t new) ++ [new]

/-- `record_test_result` (src/db/database.py lines 75-107) as called from
src/main.py with `semester_name=None`: the repository is looked up to
resolve the semester and, when absent, the function returns False
without writing; otherwise the row is upserted.  `date_run` is the
current time passed in by the caller model. -/
def recordTestResult (s : Store) (version_name release_name u r test_status : String)
    (now : Int) : Store × Bool :=
  match s.repositories.find? (fun row =>
      row.git_username = u ∧ row.repository_name = r) with
  | none => (s, false)
  | some _ =>
    let newRow : TestResultRow :=
      { version_name := version_name, release_name := release_name,
        git_username := u, repository_name := r, date_run := now,
        test_status := test_status, issue_text := none }
    ({ s with testResults := insertOrReplaceTestResult s.testResults newRow }, true)

/-- The ORDER BY semester_name, version_name comparison of
`get_active_versions`, via the derived Ord on String pairs. -/
def versionRowLe (a b : VersionRow) : Bool :=
  match compare a.semester_name b.semester_name with
  | .lt => true
  | .gt => false
  | .eq => decide (compare a.version_name b.version_name ≠ .gt)

/-- Insertion into a list sorted by `versionRowLe`. -/
def sortedInsertVersion (v : VersionRow) : List VersionRow → List VersionRow
  | [] => [v]
  | w :: ws => if versionRowLe v w then v :: w :: ws else w :: sortedInsertVersion v ws

/-- Stable ordering of rows by (semester_name, version_name), modelling
the ORDER BY clause of `get_active_versions`. -/
def orderVersions (vs : List VersionRow) : List VersionRow :=
  vs.foldr sortedInsertVersion []

/-- `get_active_versions` (src/db/database.py lines 109-128): Version
rows whose [date_from, date_to] window contains the server clock shifted
back three hours, optionally filtered to one semester, ordered by
(semester_name, version_name). -/
def getActiveVersions (s : Store) (now : Int) (semester : Option String) :
    List VersionRow :=
  orderVersions (s.versions.filter (fun v =>
    decide (now - 10800 ≥ v.date_from) && decide (now - 10800 ≤ v.date_to) &&
    (match semester with
     | some sem => decide (v.semester_name = sem)
     | none => true)))

/-! ### Docker dispatch, src/docker_ops.py lines 18-77 -/

/-- Default value of the CALLBACK_URL environment read
(src/docker_ops.py line 32). -/
def CALLBACK_URL : String := "https://compiler-tester.insper-comp.com.br/api/test-result"

/-- Default value of the API_SECRET environment read
(src/docker_ops.py line 33). -/
def API_SECRET : String := "your-default-secret-change-me"

/-- Whether `pat` is a prefix of `cs`. -/
def listStartsWith : List Char → List Char → Bool
  | [], _ => true
  | _ :: _, [] => false
  | p :: ps, c :: cs => p = c && listStartsWith ps cs

/-- Python `str.replace` over character lists, by fuel-bounded
recursion (the fuel is the list length, enough to scan it once):
every occurrence of the nonempty pattern is replaced, scanning left to
right. -/
def replaceAllAux (pat rep : List Char) : Nat → List Char → List Char
  | _, [] => []
  | 0, cs => cs
  | fuel + 1, c :: cs =>
    if listStartsWith pat (c :: cs) && ! pat.isEmpty then
      rep ++ replaceAllAux pat rep fuel (cs.drop (pat.length - 1))
    else
      c :: replaceAllAux pat rep fuel cs

/-- Python `str.replace` for a nonempty pattern. -/
def replaceAll (pat rep cs : List Char) : List Char :=
  replaceAllAux pat rep cs.length cs

/-- The image name computed at src/docker_ops.py line 45:
`compiler-testing-lib-` followed by the repository language lowered,
with `#` replaced by `s` and `++` by `pp`. -/
def languageImageName (repo_language : String) : String :=
  "compiler-testing-lib-" ++ String.mk
    (replaceAll "++".data "pp".data
      (replaceAll "#".data "s".data
        (repo_language.data.map Char.toLower)))

/-- The version string computed at src/docker_ops.py line 37:
`release[:4] if len(release) >= 4 else release`, where `release[:4]`
keeps the first four characters. -/
def versionShort (release : String) : String :=
  if release.data.length ≥ 4 then String.mk (release.data.take 4) else release

set_option linter.unusedVariables false in
/-- The argv list built at src/docker_ops.py lines 40-58.  The `version`
parameter of `run_docker_container_async` is accepted but never used in
the command; the `--version` argument is `versionShort release`. -/
def dockerCmd (git_username repository_name repo_language language version
    file_extension command_template access_token release callback_url
    api_secret : String) : List String :=
  ["docker", "run", "--rm", "-it",
   "-e", "DOTNET_SKIP_FIRST_TIME_EXPERIENCE=1",
   "-e", "DOTNET_NOLOGO=1",
   "-e", "DOTNET_CLI_TELEMETRY_OPTOUT=1",
   languageImageName repo_language,
   "--git_username", git_username,
   "--git_repository", repository_name,
   "--language", language,
   "--version", versionShort release,
   "--file_extension", file_extension,
   "--max_errors", "5",
   "--timeout", "30",
   "--command_template", command_template,
   "--token", access_token,
   "--release", release,
   "--callback_url", callback_url,
   "--api_secret", api_secret]

/-- The value paired with the first occurrence of a flag in an argv
list. -/
def argAfter (flag : String) : List String → Option String
  | [] => none
  | [_] => none
  | x :: y :: rest => if x = flag then some y else argAfter flag (y :: rest)

/-! ### process_tag_event, src/webhook_handler.py lines 41-204 -/

/-- An attempted call to `create_github_issue`; its network outcome is
an external effect, so only the request content is recorded. -/
structure IssueCall where
  title : String
  body : String
deriving DecidableEq, Repr

/-- The return value of `process_tag_event`: `boolResult false` for the
`return False` paths (lines 48 and 172), `ignored` for the structured
rejections, `started` for an admitted tag, `error` for the outer
`except` handler at lines 198-204. -/
inductive TagResult where
  | boolResult (b : Bool)
  | ignored (reason message : String) (issue_url : Option String)
  | started (message : String)
  | error (message : String)
deriving DecidableEq, Repr

/-- Everything observable about one `process_tag_event` call: the store
afterwards, the returned value, the issue-creation attempts and the
Docker dispatches. -/
structure TagOutcome where
  store : Store
  result : TagResult
  issues : List IssueCall
  dispatches : List (List String)
deriving DecidableEq, Repr

/-- Rendering of the Python AttributeError raised when a missing method
is looked up on the DatabaseManager instance and stringified by the
handler at line 202. -/
def attrErrorMsg (m : String) : String :=
  "AttributeError: DatabaseManager object has no attribute " ++ m

/-- Issue body composed at src/webhook_handler.py lines 57-61. -/
def invalidTagBody (tag : String) : String :=
  "An invalid tag was created: `" ++ tag ++ "`.\n\n" ++
  "The expected pattern is `vX.X.X` (e.g., `v1.2.3`).\n\n" ++
  "Please create a new tag following the semantic version pattern."

/-- Issue body composed at src/webhook_handler.py lines 82-85. -/
def duplicateTagBody (tag : String) : String :=
  "The tag `" ++ tag ++ "` was already used before for this repository.\n\n" ++
  "Please create a new tag with a higher version (e.g., `v1.2.4`)."

/-- Issue body composed at src/webhook_handler.py lines 110-113. -/
def notGreaterBody (tag lastTag : String) : String :=
  "The new tag `" ++ tag ++ "` is not greater than the last valid tag `" ++
  lastTag ++ "`.\n\n" ++
  "Please create a tag with a higher version (e.g., if the last was `" ++
  lastTag ++ "`, use a higher one like `vX.Y.Z`)."

/-- Issue body composed at src/webhook_handler.py lines 149-152. -/
def versionNotFoundBody (tag majorMinor : String) : String :=
  "The tag `" ++ tag ++ "` maps to version `" ++ majorMinor ++
  "`, which is not a valid Version.\n\n" ++
  "Please check the version calendar in handouts website."

/-- The best-effort notification block (lines 53-66, 78-90, 106-118 and
145-157): an issue is attempted only when installation_id is truthy; a
raising notifier leaves the url as None.  `notifier` maps the title and
body to the url returned by `create_github_issue`, none standing for a
None return or a swallowed exception. -/
def tryNotify (notifier : String → String → Option String)
    (repoInfo : RepoInfo) (title body : String) :
    Option String × List IssueCall :=
  if pyTruthyId repoInfo.installation_id then
    (notifier title body, [{ title := title, body := body }])
  else (none, [])

/-- Continuation of `process_tag_event` from line 128 on: MAJOR.MINOR
truncation, Version lookup (a further attribute lookup, guarded like
the others) and dispatch; the unreachable repeated format check at
lines 133-140 is dead because the truncated string is never empty. -/
def processTagFromVersionMapping (notifier : String → String → Option String)
    (accessToken : String) (s : Store) (u r tag : String)
    (repoInfo : RepoInfo) (parsed : Nat × Nat × Nat) : TagOutcome :=
  let majorMinor := "v" ++ toString parsed.1 ++ "." ++ toString parsed.2.1
  if dbManagerHasAttr "get_version_info" then
    match getVersionInfo s repoInfo.semester_name majorMinor with
    | none =>
      let n := tryNotify notifier repoInfo ("Version not found: " ++ majorMinor)
        (versionNotFoundBody tag majorMinor)
      { store := s,
        result := .ignored "version_not_found"
          ("Version " ++ majorMinor ++ " not found for semester " ++
            repoInfo.semester_name) n.1,
        issues := n.2, dispatches := [] }
    | some _ =>
      match getSemesterInfo s repoInfo.semester_name with
      | none => { store := s, result := .boolResult false,
                  issues := [], dispatches := [] }
      | some semesterInfo =>
        if ¬ pyTruthyId repoInfo.installation_id then
          { store := s, result := .boolResult false,
            issues := [], dispatches := [] }
        else
          { store := s, result := .started "Tests started for valid tag",
            issues := [],
            dispatches := [dockerCmd u r repoInfo.language
              semesterInfo.language majorMinor semesterInfo.extension
              repoInfo.program_call accessToken tag CALLBACK_URL API_SECRET] }
  else
    { store := s, result := .error (attrErrorMsg "get_version_info"),
      issues := [], dispatches := [] }

/-- Continuation of `process_tag_event` from line 99 on: the
monotonicity check over the previously recorded well-formed tags.  This
code is reachable only when the attribute lookups at lines 76 and 100
both succeed, which `processTagEvent` decides with `dbManagerHasAttr`;
the ledger read it performs is the spec-modelled `getReleaseTags`. -/
def processTagFromMonotonicity (notifier : String → String → Option String)
    (accessToken : String) (s : Store) (u r tag : String)
    (repoInfo : RepoInfo) (parsed : Nat × Nat × Nat) : TagOutcome :=
  let prevTags := (getReleaseTags s u r).filter (fun t => (parseSemver t).isSome)
  match pyMaxByKey minorOf prevTags with
  | some lastTag =>
    if ¬ isGreaterSemver tag lastTag then
      let n := tryNotify notifier repoInfo ("Non-incremental tag: " ++ tag)
        (notGreaterBody tag lastTag)
      { store := s,
        result := .ignored "not_greater"
          ("Tag must be greater than last tag " ++ lastTag) n.1,
        issues := n.2, dispatches := [] }
    else processTagFromVersionMapping notifier accessToken s u r tag repoInfo parsed
  | none => processTagFromVersionMapping notifier accessToken s u r tag repoInfo parsed

/-- `process_tag_event` (src/webhook_handler.py lines 41-204).  The
repository lookup and format validation run as written; the duplicate
check at line 76 and the ledger read at line 100 are Python attribute
lookups on the DatabaseManager instance, so each call site is guarded
by `dbManagerHasAttr`, and a failed lookup raises AttributeError, which
the outer handler at lines 198-204 turns into a `status: error`
result. -/
def processTagEvent (notifier : String → String → Option String)
    (accessToken : String) (s : Store) (u r tag : String) : TagOutcome :=
  match getRepositoryInfo s u r with
  | none => { store := s, result := .boolResult false, issues := [], dispatches := [] }
  | some repoInfo =>
    match parseSemver tag with
    | none =>
      let n := tryNotify notifier repoInfo ("Invalid tag: " ++ tag)
        (invalidTagBody tag)
      { store := s,
        result := .ignored "invalid_format" "Tag must follow vX.X.X" n.1,
        issues := n.2, dispatches := [] }
    | some parsed =>
      if dbManagerHasAttr "has_release_tag" then
        if hasReleaseTag s u r tag then
          let n := tryNotify notifier repoInfo ("Duplicate tag: " ++ tag)
            (duplicateTagBody tag)
          { store := s,
            result := .ignored "duplicate" "Tag was already processed before" n.1,
            issues := n.2, dispatches := [] }
        else if dbManagerHasAttr "get_release_tags" then
          processTagFromMonotonicity notifier accessToken s u r tag repoInfo parsed
        else
          { store := s, result := .error (attrErrorMsg "get_release_tags"),
            issues := [], dispatches := [] }
      else
        { store := s, result := .error (attrErrorMsg "has_release_tag"),
          issues := [], dispatches := [] }

/-- The response shape assembled by `process_webhook_payload`
(src/webhook_handler.py lines 326-334) for a tag event. -/
structure WebhookResponse where
  status : String
  reason : Option String
  message : String
deriving DecidableEq, Repr

/-- Lines 326-334 of src/webhook_handler.py: a dict result is passed
through with its own status and reason; the backward-compatibility
fallback turns `False` into a `status: error` response with no reason
field. -/
def wrapTagResult (tag : String) : TagResult → WebhookResponse
  | .boolResult b =>
    if b then
      { status := "success", reason := none,
        message := "Tag event processed: " ++ tag }
    else
      { status := "error", reason := none,
        message := "Failed to process tag event: " ++ tag }
  | .ignored reason message _ =>
    { status := "ignored", reason := some reason, message := message }
  | .started message =>
    { status := "started", reason := none, message := message }
  | .error message =>
    { status := "error", reason := none, message := message }

/-! ### Process monitor, src/docker_ops.py lines 80-120 -/

/-- The names visible inside `_monitor_docker_process`: its parameters,
the locals assigned in its body, and the module-level names of
src/docker_ops.py (imports at lines 5-9 plus the globals at lines
11-15 and the two function definitions).  Neither `timeout` nor
`create_github_issue` is among them. -/
def monitorVisibleNames : List String :=
  ["process", "git_username", "repository_name", "release",
   "CALLBACK_URL", "API_SECRET", "stdout", "stderr", "repo_info",
   "installation_id", "url",
   "os", "asyncio", "logging", "Optional", "db_manager", "logger",
   "run_docker_container_async", "_monitor_docker_process"]

/-- Whether a name resolves inside `_monitor_docker_process`. -/
def monitorNameDefined (n : String) : Bool :=
  monitorVisibleNames.contains n

/-- How the monitored container process behaves: it either finishes
within the 180 second ceiling with a return code, or exceeds it and
`asyncio.wait_for` raises TimeoutError. -/
inductive ProcRun where
  | completes (returncode : Int)
  | exceedsTimeout
deriving DecidableEq, Repr

/-- Everything observable about one `_monitor_docker_process` call:
whether the container process was killed, the issue-creation attempts,
and the message swallowed by the outer `except` handler at lines
119-120 when the body raised. -/
structure MonitorOutcome where
  killed : Bool
  issues : List IssueCall
  monitorError : Option String
deriving DecidableEq, Repr

/-- The issue composed at src/docker_ops.py lines 95-101 for a timed
out container. -/
def timeoutIssue : IssueCall :=
  { title := "Docker container - FAILED",
    body := "Your submission failed the automated tests. Something in your submission is crashing the container." }

set_option linter.unusedVariables false in
/-- `_monitor_docker_process` (src/docker_ops.py lines 80-120).  In the
TimeoutError branch, the log message at line 90 is an f-string that
evaluates the name `timeout` before `process.kill()` runs, and the call
at line 95 evaluates the name `create_github_issue`; each evaluation is
guarded by `monitorNameDefined`, and a failed resolution raises
NameError, which only the outer handler catches. -/
def monitorDockerProcess (s : Store) (u r release : String) (run : ProcRun) :
    MonitorOutcome :=
  match run with
  | .completes _ =>
    { killed := false, issues := [], monitorError := none }
  | .exceedsTimeout =>
    if monitorNameDefined "timeout" then
      if monitorNameDefined "create_github_issue" then
        match getRepositoryInfo s u r with
        | none =>
          { killed := true, issues := [],
            monitorError := some "TypeError: NoneType is not subscriptable" }
        | some _ =>
          { killed := true, issues := [timeoutIssue], monitorError := none }
      else
        { killed := true, issues := [],
          monitorError := some "NameError: name create_github_issue is not defined" }
    else
      { killed := false, issues := [],
        monitorError := some "NameError: name timeout is not defined" }

/-! ### POST /webhook route, src/main.py lines 74-180 -/

/-- The response dict returned by the route for a tag-bearing event
(src/main.py lines 130-134 and 176-180): always `status: success`, with
no reason field. -/
structure RouteResponse where
  status : String
  reason : Option String
  message : String
deriving DecidableEq, Repr

/-- One iteration of the result-recording loop at src/main.py lines
109-124: run the compilation test for one active version and upsert its
TestResult row. -/
def writeStep (testOracle : String → VersionRow → String) (now : Int)
    (tag u r : String) (st : Store) (v : VersionRow) : Store :=
  (recordTestResult st v.version_name tag u r (testOracle tag v) now).1

/-- The TestResult row the route loop writes for one active version. -/
def routeRow (testOracle : String → VersionRow → String) (now : Int)
    (tag u r : String) (v : VersionRow) : TestResultRow :=
  { version_name := v.version_name, release_name := tag, git_username := u,
    repository_name := r, date_run := now, test_status := testOracle tag v,
    issue_text := none }

/-- The tag-bearing branches of the `webhook` route handler in
src/main.py (lines 93-134 for a `create` event with ref_type tag, and
the line-for-line identical lines 136-180 for a `push` of refs/tags/*,
which differ only in the response message).  When the repository row
exists, the handler fetches the active versions of its semester and,
for each, runs the compilation test and upserts one TestResult row; the
tag string itself is never validated.  `testOracle` stands for
`run_actual_compilation_test`, an external clone-and-compile run that
always returns a status string. -/
def mainWebhookTagEvent (isPush : Bool) (now : Int)
    (testOracle : String → VersionRow → String) (s : Store)
    (u r tag : String) : Store × RouteResponse :=
  let response : RouteResponse :=
    { status := "success", reason := none,
      message := (if isPush then "Tag push processed: " else "Tag event processed: ")
        ++ tag }
  match getRepositoryInfo s u r with
  | none => (s, response)
  | some repoInfo =>
    let active := getActiveVersions s now (some repoInfo.semester_name)
    let sAfter := active.foldl (writeStep testOracle now tag u r) s
    (sAfter, response)

/-! ### Concrete inputs used to instantiate the theorems -/

/-- Whether a `process_tag_event` result is the `status: ignored`
rejection with the given reason. -/
def TagResult.isIgnoredWith : TagResult → String → Bool
  | .ignored reason _ _, want => reason == want
  | _, _ => false

/-- A notifier whose issue creation always fails (url None); tag
decisions must not depend on it. -/
def noNotifier : String → String → Option String := fun _ _ => none

/-- A semester row used by the concrete stores. -/
def demoSemester : SemesterRow :=
  { name := "BCC-2025-2", language := "python", extension := ".py",
    secret := "hook-secret" }

/-- A registered repository row for a given owner and name. -/
def demoRepo (u r : String) : RepoRow :=
  { git_username := u, repository_name := r, semester_name := "BCC-2025-2",
    compiled := 1, program_call := "python main.py", installation_id := some 77,
    language := "python" }

/-- A Version row of the demo semester, active on [0, 1000000]. -/
def demoVersion (vn : String) : VersionRow :=
  { version_name := vn, semester_name := "BCC-2025-2", direct_input := 0,
    date_from := 0, date_to := 1000000 }

/-- A recorded TestResult row of the demo semester. -/
def demoResult (vn rn u r : String) : TestResultRow :=
  { version_name := vn, release_name := rn, git_username := u,
    repository_name := r, date_run := 5, test_status := "PASS",
    issue_text := none }

/-- Store with a registered repository and no recorded releases; used
to exercise the format check. -/
def formatStore : Store :=
  { repositories := [demoRepo "alice" "proj"], semesters := [demoSemester],
    versions := [demoVersion "v1.0"], testResults := [] }

/-- Store for the monotonicity scenario: the repository has the prior
recorded well-formed tag v1.2.5, so the spec expects v1.2.4 to be
rejected as not greater. -/
def monoStore : Store :=
  { repositories := [demoRepo "mona" "monorepo"], semesters := [demoSemester],
    versions := [demoVersion "v1.2"],
    testResults := [demoResult "v1.2" "v1.2.5" "mona" "monorepo"] }

/-- Store for the duplicate scenario: the exact tag v1.0.0 is already
recorded for the repository, so the spec expects a resubmission to be
rejected as duplicate. -/
def dupStore : Store :=
  { repositories := [demoRepo "bob" "comp"], semesters := [demoSemester],
    versions := [demoVersion "v1.0"],
    testResults := [demoResult "v1.0" "v1.0.0" "bob" "comp"] }

/-- Store for the version-mapping scenario: the semester has no Version
row v9.9, so the spec expects tag v9.9.9 to be rejected as unmapped. -/
def unmappedStore : Store :=
  { repositories := [demoRepo "carol" "codegen"], semesters := [demoSemester],
    versions := [demoVersion "v1.0"], testResults := [] }

/-- Store for the timeout scenario: the repository whose container run
exceeds the wall-clock ceiling. -/
def timeoutStore : Store :=
  { repositories := [demoRepo "dave" "lexer"], semesters := [demoSemester],
    versions := [demoVersion "v1.0"], testResults := [] }

/-- Store for the webhook-route scenario: one registered repository and
one active version of its semester. -/
def routeStore : Store :=
  { repositories := [demoRepo "erin" "webroute"], semesters := [demoSemester],
    versions := [demoVersion "v1.0"], testResults := [] }

/-- Store with no repositories, used for the unregistered-repository
scenario. -/
def emptyStore : Store :=
  { repositories := [], semesters := [demoSemester],
    versions := [demoVersion "v1.0"], testResults := [] }

/-! ### Helper lemmas -/

theorem sameTestResultKey_self (t : TestResultRow) : sameTestResultKey t t = true := by
  simp [sameTestResultKey, trKey]

theorem filter_not_filter {α : Type} (p : α → Bool) (l : List α) :
    (l.filter (fun a => ! p a)).filter p = [] := by
  induction l with
  | nil => rfl
  | cons a l ih => by_cases h : p a <;> simp [List.filter_cons, h, ih]

theorem filter_filter_of_imp {α : Type} (p q : α → Bool)
    (h : ∀ a, p a = true → q a = true) (l : List α) :
    (l.filter q).filter p = l.filter p := by
  induction l with
  | nil => rfl
  | cons a l ih =>
    by_cases hq : q a = true
    · simp [List.filter_cons, hq, ih]
    · have hp : p a = false := by
        cases hpa : p a
        · rfl
        · exact absurd (h a hpa) hq
      simp [List.filter_cons, hq, hp, ih]

theorem filter_insertOrReplace_key (rows : List TestResultRow) (new : TestResultRow) :
    (insertOrReplaceTestResult rows new).filter
      (trKey new.version_name new.release_name new.git_username new.repository_name)
      = [new] := by
  unfold insertOrReplaceTestResult
  rw [List.filter_append]
  have h1 : (rows.filter (fun t => ! sameTestResultKey t new)).filter
      (trKey new.version_name new.release_name new.git_username new.repository_name)
      = [] := filter_not_filter _ rows
  have h2 : List.filter
      (trKey new.version_name new.release_name new.git_username new.repository_name)
      [new] = [new] := by
    simp [List.filter_cons, sameTestResultKey_self new]
    exact sameTestResultKey_self new
  rw [h1, h2, List.nil_append]

theorem filter_insertOrReplace_other (rows : List TestResultRow) (new : TestResultRow)
    (vn rn ku kr : String) (h : vn ≠ new.version_name) :
    (insertOrReplaceTestResult rows new).filter (trKey vn rn ku kr) =
      rows.filter (trKey vn rn ku kr) := by
  unfold insertOrReplaceTestResult
  rw [List.filter_append]
  have h1 : List.filter (trKey vn rn ku kr) [new] = [] := by
    have : trKey vn rn ku kr new = false := by
      simp [trKey]
      intro hvn
      exact absurd hvn.symm h
    simp [List.filter_cons, this]
  have h2 : (rows.filter (fun t => ! sameTestResultKey t new)).filter
      (trKey vn rn ku kr) = rows.filter (trKey vn rn ku kr) := by
    apply filter_filter_of_imp
    intro t ht
    have hvn : t.version_name = vn := by
      simp [trKey] at ht
      exact ht.1.1.1
    simp [sameTestResultKey, trKey]
    left; left; left
    exact fun he => h (hvn.symm.trans he)
  rw [h1, h2, List.append_nil]

theorem writeStep_repositories (oracle : String → VersionRow → String) (now : Int)
    (tag u r : String) (st : Store) (v : VersionRow) :
    (writeStep oracle now tag u r st v).repositories = st.repositories := by
  unfold writeStep recordTestResult
  cases h : st.repositories.find? (fun row =>
      row.git_username = u ∧ row.repository_name = r) <;> simp [h]

theorem writeStep_newRow (oracle : String → VersionRow → String) (now : Int)
    (tag u r : String) (st : Store) (v : VersionRow)
    (hfind : (st.repositories.find? (fun row =>
      row.git_username = u ∧ row.repository_name = r)).isSome = true) :
    (writeStep oracle now tag u r st v).testResults =
      insertOrReplaceTestResult st.testResults (routeRow oracle now tag u r v) := by
  unfold writeStep recordTestResult
  obtain ⟨row, hrow⟩ := Option.isSome_iff_exists.mp hfind
  rw [hrow]
  rfl

theorem foldWrite_filter_preserved (oracle : String → VersionRow → String) (now : Int)
    (tag u r vn rn ku kr : String) (vs : List VersionRow) (st : Store)
    (h : ∀ x ∈ vs, x.version_name ≠ vn) :
    ((vs.foldl (writeStep oracle now tag u r) st).testResults).filter
        (trKey vn rn ku kr)
      = st.testResults.filter (trKey vn rn ku kr) := by
  induction vs generalizing st with
  | nil => rfl
  | cons w rest ih =>
    rw [List.foldl_cons, ih _ (fun x hx => h x (List.mem_cons_of_mem w hx))]
    unfold writeStep recordTestResult
    cases hf : st.repositories.find? (fun row =>
        row.git_username = u ∧ row.repository_name = r) with
    | none => rfl
    | some row =>
      exact filter_insertOrReplace_other _ _ _ _ _ _
        (Ne.symm (h w (List.mem_cons_self w rest)))

theorem foldWrite_filter_mem (oracle : String → VersionRow → String) (now : Int)
    (tag u r : String) :
    ∀ (vs : List VersionRow) (st : Store),
      (st.repositories.find? (fun row =>
        row.git_username = u ∧ row.repository_name = r)).isSome = true →
      vs.Pairwise (fun a b => a.version_name ≠ b.version_name) →
      ∀ v ∈ vs,
        ((vs.foldl (writeStep oracle now tag u r) st).testResults).filter
            (trKey v.version_name tag u r)
          = [routeRow oracle now tag u r v] := by
  intro vs
  induction vs with
  | nil => intro st _ _ v hv; cases hv
  | cons w rest ih =>
    intro st hfind hp v hv
    rw [List.foldl_cons]
    rcases List.mem_cons.mp hv with rfl | hv2
    · rw [foldWrite_filter_preserved _ _ _ _ _ _ _ _ _ _ _
        (fun x hx => Ne.symm ((List.pairwise_cons.mp hp).1 x hx))]
      rw [writeStep_newRow _ _ _ _ _ _ _ hfind]
      exact filter_insertOrReplace_key st.testResults (routeRow oracle now tag u r v)
    · exact ih (writeStep oracle now tag u r st w)
        (by rw [writeStep_repositories]; exact hfind)
        (List.pairwise_cons.mp hp).2 v hv2

theorem getRepositoryInfo_find (s : Store) (u r : String) (ri : RepoInfo)
    (h : getRepositoryInfo s u r = some ri) :
    (s.repositories.find? (fun row =>
      row.git_username = u ∧ row.repository_name = r)).isSome = true := by
  unfold getRepositoryInfo at h
  cases hf : s.repositories.find? (fun row =>
      row.git_username = u ∧ row.repository_name = r) with
  | none => rw [hf] at h; cases h
  | some row => rfl

/-! ### The claims -/

/-- C3: for a repository present in the Store, `process_tag_event`
returns the rejection with status ignored and reason invalid_format,
dispatching no build, for every tag string that `_parse_semver`
rejects; every tag the parser accepts passes this check, meaning the
result is never the invalid_format rejection. -/
theorem malformed_tag_rejected (notifier : String → String → Option String)
    (tok : String) (s : Store) (u r tag : String)
    (hrepo : (getRepositoryInfo s u r).isSome = true) :
    (parseSemver tag = none →
      ((processTagEvent notifier tok s u r tag).result.isIgnoredWith
        "invalid_format") = true ∧
      (processTagEvent notifier tok s u r tag).dispatches = []) ∧
    (parseSemver tag ≠ none →
      ((processTagEvent notifier tok s u r tag).result.isIgnoredWith
        "invalid_format") = false) := by
  obtain ⟨ri, hri⟩ := Option.isSome_iff_exists.mp hrepo
  constructor
  · intro hmal
    unfold processTagEvent
    rw [hri, hmal]
    by_cases hid : pyTruthyId ri.installation_id = true <;>
      simp [tryNotify, hid, TagResult.isIgnoredWith]
  · intro hok
    obtain ⟨parsed, hparsed⟩ := Option.ne_none_iff_exists.mp hok
    unfold processTagEvent
    rw [hri, ← hparsed]
    have hattr : dbManagerHasAttr "has_release_tag" = false := by decide
    simp [hattr, TagResult.isIgnoredWith]

/-- C3 witness: the registered repository alice/proj with the malformed
tag release-1 is rejected as invalid_format; the well-formed v1.0.0 is
not; and the Arabic-Indic-digit tag v١.٢.٣, which the Python regex also
accepts, is likewise not rejected as invalid_format. -/
theorem malformed_tag_rejected_witness :
    ((parseSemver "release-1" = none →
      ((processTagEvent noNotifier "tok" formatStore "alice" "proj"
        "release-1").result.isIgnoredWith "invalid_format") = true ∧
      (processTagEvent noNotifier "tok" formatStore "alice" "proj"
        "release-1").dispatches = []) ∧
    (parseSemver "release-1" ≠ none →
      ((processTagEvent noNotifier "tok" formatStore "alice" "proj"
        "release-1").result.isIgnoredWith "invalid_format") = false)) ∧
    ((parseSemver "v1.0.0" = none →
      ((processTagEvent noNotifier "tok" formatStore "alice" "proj"
        "v1.0.0").result.isIgnoredWith "invalid_format") = true ∧
      (processTagEvent noNotifier "tok" formatStore "alice" "proj"
        "v1.0.0").dispatches = []) ∧
    (parseSemver "v1.0.0" ≠ none →
      ((processTagEvent noNotifier "tok" formatStore "alice" "proj"
        "v1.0.0").result.isIgnoredWith "invalid_format") = false)) ∧
    ((parseSemver "v١.٢.٣" = none →
      ((processTagEvent noNotifier "tok" formatStore "alice" "proj"
        "v١.٢.٣").result.isIgnoredWith "invalid_format") = true ∧
      (processTagEvent noNotifier "tok" formatStore "alice" "proj"
        "v١.٢.٣").dispatches = []) ∧
    (parseSemver "v١.٢.٣" ≠ none →
      ((processTagEvent noNotifier "tok" formatStore "alice" "proj"
        "v١.٢.٣").result.isIgnoredWith "invalid_format") = false)) :=
  ⟨malformed_tag_rejected noNotifier "tok" formatStore "alice" "proj"
      "release-1" (by decide),
   malformed_tag_rejected noNotifier "tok" formatStore "alice" "proj"
      "v1.0.0" (by decide),
   malformed_tag_rejected noNotifier "tok" formatStore "alice" "proj"
      "v١.٢.٣" (by decide)⟩

/-- C6: for a (git_username, repository_name) pair absent from the
Store, `process_tag_event` returns the `False` short-circuit with no
issue, no dispatch and no Store write, and the webhook wrapper reports
a plain error response carrying no admission reason — in particular the
status is not the ignored admission rejection. -/
theorem unregistered_repo_silently_ignored
    (notifier : String → String → Option String) (tok : String)
    (s : Store) (u r tag : String)
    (habs : getRepositoryInfo s u r = none) :
    processTagEvent notifier tok s u r tag =
      { store := s, result := .boolResult false, issues := [], dispatches := [] } ∧
    wrapTagResult tag (processTagEvent notifier tok s u r tag).result =
      { status := "error", reason := none,
        message := "Failed to process tag event: " ++ tag } ∧
    (wrapTagResult tag (processTagEvent notifier tok s u r tag).result).status
      ≠ "ignored" := by
  have h1 : processTagEvent notifier tok s u r tag =
      { store := s, result := .boolResult false, issues := [], dispatches := [] } := by
    unfold processTagEvent
    rw [habs]
  refine ⟨h1, ?_, ?_⟩ <;> rw [h1] <;> simp [wrapTagResult]

/-- C6 witness: the unregistered pair ghost/phantom on the store with
no repositories. -/
theorem unregistered_repo_silently_ignored_witness :
    processTagEvent noNotifier "tok" emptyStore "ghost" "phantom" "v1.0.0" =
      { store := emptyStore, result := .boolResult false, issues := [],
        dispatches := [] } ∧
    wrapTagResult "v1.0.0"
        (processTagEvent noNotifier "tok" emptyStore "ghost" "phantom"
          "v1.0.0").result =
      { status := "error", reason := none,
        message := "Failed to process tag event: " ++ "v1.0.0" } ∧
    (wrapTagResult "v1.0.0"
        (processTagEvent noNotifier "tok" emptyStore "ghost" "phantom"
          "v1.0.0").result).status ≠ "ignored" :=
  unregistered_repo_silently_ignored noNotifier "tok" emptyStore "ghost"
    "phantom" "v1.0.0" (by decide)

/-- C7: for a repository present in the Store and a malformed tag,
`process_tag_event` leaves the Store exactly as it was: the Repository,
Semester, Version and TestResult tables after the call are those before
it. -/
theorem malformed_tag_preserves_store
    (notifier : String → String → Option String) (tok : String)
    (s : Store) (u r tag : String)
    (hrepo : (getRepositoryInfo s u r).isSome = true)
    (hmal : parseSemver tag = none) :
    (processTagEvent notifier tok s u r tag).store = s := by
  obtain ⟨ri, hri⟩ := Option.isSome_iff_exists.mp hrepo
  unfold processTagEvent
  rw [hri, hmal]

/-- C7 witness: the registered repository alice/proj with the malformed
tag not-a-version. -/
theorem malformed_tag_preserves_store_witness :
    (processTagEvent noNotifier "tok" formatStore "alice" "proj"
      "not-a-version").store = formatStore :=
  malformed_tag_preserves_store noNotifier "tok" formatStore "alice" "proj"
    "not-a-version" (by decide) (by decide)

/-- C9: the DatabaseManager of src/db/database.py defines none of
has_release_tag, get_release_tags, get_version_info, so for a
repository present in the Store and a well-formed tag,
`process_tag_event` aborts at the duplicate check with the
AttributeError caught by its outer handler: the result is the error
status, never the started status and never an ignored rejection. -/
theorem wellformed_tag_always_errors
    (notifier : String → String → Option String) (tok : String)
    (s : Store) (u r tag : String) (v : Nat × Nat × Nat)
    (hrepo : (getRepositoryInfo s u r).isSome = true)
    (hparse : parseSemver tag = some v) :
    dbManagerHasAttr "has_release_tag" = false ∧
    dbManagerHasAttr "get_release_tags" = false ∧
    dbManagerHasAttr "get_version_info" = false ∧
    (processTagEvent notifier tok s u r tag).result =
      TagResult.error (attrErrorMsg "has_release_tag") ∧
    (∀ m, (processTagEvent notifier tok s u r tag).result ≠
      TagResult.started m) ∧
    (∀ reason, ((processTagEvent notifier tok s u r tag).result.isIgnoredWith
      reason) = false) := by
  obtain ⟨ri, hri⟩ := Option.isSome_iff_exists.mp hrepo
  have hres : (processTagEvent notifier tok s u r tag).result =
      TagResult.error (attrErrorMsg "has_release_tag") := by
    unfold processTagEvent
    rw [hri, hparse]
    have hattr : dbManagerHasAttr "has_release_tag" = false := by decide
    simp [hattr]
  refine ⟨by decide, by decide, by decide, hres, ?_, ?_⟩
  · intro m
    rw [hres]
    exact fun h => TagResult.noConfusion h
  · intro reason
    rw [hres]
    rfl

/-- C9 witness: the registered repository alice/proj with the
well-formed tag v1.0.0. -/
theorem wellformed_tag_always_errors_witness :
    dbManagerHasAttr "has_release_tag" = false ∧
    dbManagerHasAttr "get_release_tags" = false ∧
    dbManagerHasAttr "get_version_info" = false ∧
    (processTagEvent noNotifier "tok" formatStore "alice" "proj"
      "v1.0.0").result = TagResult.error (attrErrorMsg "has_release_tag") ∧
    (∀ m, (processTagEvent noNotifier "tok" formatStore "alice" "proj"
      "v1.0.0").result ≠ TagResult.started m) ∧
    (∀ reason, ((processTagEvent noNotifier "tok" formatStore "alice" "proj"
      "v1.0.0").result.isIgnoredWith reason) = false) :=
  wellformed_tag_always_errors noNotifier "tok" formatStore "alice" "proj"
    "v1.0.0" (1, 0, 0) (by decide) (by decide)

/-- C1: on the concrete store whose ledger holds the prior well-formed
tag v1.2.5, submitting v1.2.4 — same MAJOR.MINOR, PATCH not greater —
does not produce the ignored/not_greater rejection the claim describes:
the call aborts with the AttributeError from the missing has_release_tag
method and returns the error status, even though the MINOR-max
reference logic itself (spec-modelled ledger read, `pyMaxByKey minorOf`
and `isGreaterSemver`) would select v1.2.5 and reject v1.2.4. -/
theorem monotonicity_check_unreachable :
    (getRepositoryInfo monoStore "mona" "monorepo").isSome = true ∧
    getReleaseTags monoStore "mona" "monorepo" = ["v1.2.5"] ∧
    hasReleaseTag monoStore "mona" "monorepo" "v1.2.4" = false ∧
    pyMaxByKey minorOf ["v1.2.5"] = some "v1.2.5" ∧
    isGreaterSemver "v1.2.4" "v1.2.5" = false ∧
    (processTagEvent noNotifier "tok" monoStore "mona" "monorepo"
      "v1.2.4").result = TagResult.error (attrErrorMsg "has_release_tag") ∧
    ((processTagEvent noNotifier "tok" monoStore "mona" "monorepo"
      "v1.2.4").result.isIgnoredWith "not_greater") = false := by
  decide

/-- C2: on the concrete store whose ledger already records the exact
tag v1.0.0 for bob/comp, resubmitting v1.0.0 does not produce the
ignored/duplicate rejection the claim describes: the call aborts with
the AttributeError from the missing has_release_tag method and returns
the error status, even though the spec-modelled ledger lookup finds the
duplicate. -/
theorem duplicate_check_unreachable :
    (getRepositoryInfo dupStore "bob" "comp").isSome = true ∧
    hasReleaseTag dupStore "bob" "comp" "v1.0.0" = true ∧
    (processTagEvent noNotifier "tok" dupStore "bob" "comp"
      "v1.0.0").result = TagResult.error (attrErrorMsg "has_release_tag") ∧
    ((processTagEvent noNotifier "tok" dupStore "bob" "comp"
      "v1.0.0").result.isIgnoredWith "duplicate") = false ∧
    (processTagEvent noNotifier "tok" dupStore "bob" "comp"
      "v1.0.0").dispatches = [] := by
  decide

/-- C4: on the concrete store whose semester has no Version row v9.9,
submitting v9.9.9 does not produce the ignored/version_not_found
rejection the claim describes: the call aborts with the AttributeError
from the missing has_release_tag method and returns the error status,
even though the spec-modelled Version lookup for the truncated prefix
v9.9 comes back empty. -/
theorem version_mapping_unreachable :
    (getRepositoryInfo unmappedStore "carol" "codegen").isSome = true ∧
    getVersionInfo unmappedStore "BCC-2025-2" "v9.9" = none ∧
    (processTagEvent noNotifier "tok" unmappedStore "carol" "codegen"
      "v9.9.9").result = TagResult.error (attrErrorMsg "has_release_tag") ∧
    ((processTagEvent noNotifier "tok" unmappedStore "carol" "codegen"
      "v9.9.9").result.isIgnoredWith "version_not_found") = false ∧
    (processTagEvent noNotifier "tok" unmappedStore "carol" "codegen"
      "v9.9.9").dispatches = [] := by
  decide

/-- C5: the Docker command built for the release v1.10.2 with the
resolved version parameter v1.10 carries v1.1 — the first four
characters of the release — as its --version argument, not the vX.Y
prefix the claim describes; the --release argument is the full tag. -/
theorem dispatch_version_is_release_head :
    versionShort "v1.10.2" = "v1.1" ∧
    argAfter "--version" (dockerCmd "alice" "proj" "python" "python" "v1.10"
      ".py" "python main.py" "tok" "v1.10.2" CALLBACK_URL API_SECRET)
      = some "v1.1" ∧
    argAfter "--version" (dockerCmd "alice" "proj" "python" "python" "v1.10"
      ".py" "python main.py" "tok" "v1.10.2" CALLBACK_URL API_SECRET)
      ≠ some "v1.10" ∧
    argAfter "--release" (dockerCmd "alice" "proj" "python" "python" "v1.10"
      ".py" "python main.py" "tok" "v1.10.2" CALLBACK_URL API_SECRET)
      = some "v1.10.2" := by
  decide

/-- C8: when the container process exceeds the wall-clock ceiling, the
monitor does not kill it and opens no issue: the TimeoutError branch
evaluates the undefined name timeout in its log message before the kill
statement, raising NameError into the outer handler. -/
theorem timeout_monitor_raises_name_error :
    monitorNameDefined "timeout" = false ∧
    monitorNameDefined "create_github_issue" = false ∧
    monitorDockerProcess timeoutStore "dave" "lexer" "v1.0.0"
      ProcRun.exceedsTimeout =
      { killed := false, issues := [],
        monitorError := some "NameError: name timeout is not defined" } := by
  decide

/-- C10: the POST /webhook route of src/main.py, for a tag-bearing event
on a registered repository, answers success and upserts exactly one
TestResult row (release_name = the raw tag, status from the compilation
run) for every currently-active Version of the repository's semester —
with no hypothesis on the tag string, since the route applies no
format, duplicate, monotonicity or version-mapping check and never
calls `process_tag_event`. -/
theorem webhook_route_writes_without_admission (isPush : Bool) (now : Int)
    (oracle : String → VersionRow → String) (s : Store) (u r tag : String)
    (ri : RepoInfo)
    (hrepo : getRepositoryInfo s u r = some ri)
    (hdist : (getActiveVersions s now (some ri.semester_name)).Pairwise
      (fun a b => a.version_name ≠ b.version_name)) :
    (mainWebhookTagEvent isPush now oracle s u r tag).2.status = "success" ∧
    (mainWebhookTagEvent isPush now oracle s u r tag).2.reason = none ∧
    ∀ v ∈ getActiveVersions s now (some ri.semester_name),
      ((mainWebhookTagEvent isPush now oracle s u r tag).1.testResults).filter
          (trKey v.version_name tag u r)
        = [routeRow oracle now tag u r v] := by
  have hmain : mainWebhookTagEvent isPush now oracle s u r tag =
      ((getActiveVersions s now (some ri.semester_name)).foldl
        (writeStep oracle now tag u r) s,
       { status := "success", reason := none,
         message := (if isPush then "Tag push processed: "
           else "Tag event processed: ") ++ tag }) := by
    unfold mainWebhookTagEvent
    rw [hrepo]
  refine ⟨by rw [hmain], by rw [hmain], ?_⟩
  intro v hv
  rw [hmain]
  exact foldWrite_filter_mem oracle now tag u r _ s
    (getRepositoryInfo_find s u r ri hrepo) hdist v hv

/-- C10 witness: the registered repository erin/webroute, whose semester
has the single active version v1.0, evaluated on the malformed tag
not-a-version at time 20000: the route still answers success and writes
the row for v1.0 with that release name. -/
theorem webhook_route_writes_without_admission_witness :
    (mainWebhookTagEvent false 20000 (fun _ _ => "PASS") routeStore "erin"
      "webroute" "not-a-version").2.status = "success" ∧
    (mainWebhookTagEvent false 20000 (fun _ _ => "PASS") routeStore "erin"
      "webroute" "not-a-version").2.reason = none ∧
    ∀ v ∈ getActiveVersions routeStore 20000 (some "BCC-2025-2"),
      ((mainWebhookTagEvent false 20000 (fun _ _ => "PASS") routeStore "erin"
        "webroute" "not-a-version").1.testResults).filter
          (trKey v.version_name "not-a-version" "erin" "webroute")
        = [routeRow (fun _ _ => "PASS") 20000 "not-a-version" "erin"
            "webroute" v] :=
  webhook_route_writes_without_admission false 20000 (fun _ _ => "PASS")
    routeStore "erin" "webroute" "not-a-version"
    { git_username := "erin", repository_name := "webroute",
      semester_name := "BCC-2025-2", compiled := 1,
      program_call := "python main.py", installation_id := some 77,
      language := "python", extension := ".py", secret := "hook-secret" }
    (by decide) (by decide)

end CompilerTester
